import Mathlib

/-!
Shallow embedding of the cernan sink delivery subsystem:
  src/sink/kafka.rs  — the Kafka sink (delivery engine with valve and retry)
  src/sink.rs        — the Sink trait's dispatch loop (`run`)
Rust byte slices are `List Nat`, machine counters are `Nat` (no overflow is
relevant to the claims), the four process-wide atomic counters are threaded
through the sink state, and the librdkafka transport is modelled by an
oracle `responses : Nat → WaitResult` giving the result the n-th submitted
delivery future resolves to.
-/

namespace Cernan

/-- rdkafka error codes, split into the twelve codes cernan's
`await_inflight_messages` lists as retryable and a collective constructor
for every other code (the `_` arm of the Rust match). -/
inductive RDKafkaError
  | InvalidMessage
  | UnknownTopicOrPartition
  | LeaderNotAvailable
  | NotLeaderForPartition
  | RequestTimedOut
  | NetworkException
  | GroupLoadInProgress
  | GroupCoordinatorNotAvailable
  | NotCoordinatorForGroup
  | NotEnoughReplicas
  | NotEnoughReplicasAfterAppend
  | NotController
  | OtherError
  deriving DecidableEq, Repr

/-- The retryable list of `Kafka::await_inflight_messages` (kafka.rs lines
199-210): true exactly on the twelve codes of the first match arm. -/
def RDKafkaError.isTransient : RDKafkaError → Bool
  | .InvalidMessage => true
  | .UnknownTopicOrPartition => true
  | .LeaderNotAvailable => true
  | .NotLeaderForPartition => true
  | .RequestTimedOut => true
  | .NetworkException => true
  | .GroupLoadInProgress => true
  | .GroupCoordinatorNotAvailable => true
  | .NotCoordinatorForGroup => true
  | .NotEnoughReplicas => true
  | .NotEnoughReplicasAfterAppend => true
  | .NotController => true
  | .OtherError => false

/-- KafkaError: either `MessageProduction` of an rdkafka code, or any other
variant (the `_` arm at kafka.rs line 224). -/
inductive KafkaError
  | MessageProduction (e : RDKafkaError)
  | OtherKafkaError
  deriving DecidableEq, Repr

/-- rdkafka `OwnedMessage` as the kafka sink reads it: the optional payload
bytes and key bytes returned with a production error. -/
structure OwnedMessage where
  payload : Option (List Nat)
  key : Option (List Nat)
  deriving DecidableEq, Repr

/-- Result of `DeliveryFuture::wait()` as matched in
`await_inflight_messages`: `Ok(Ok((partition, offset)))`,
`Ok(Err((err, message)))`, or an outer `Err(_)`. -/
inductive WaitResult
  | Ok_Ok (partition : Int) (offset : Int)
  | Ok_Err (e : KafkaError) (message : OwnedMessage)
  | Err
  deriving DecidableEq, Repr

/-- A pending delivery: the payload and key handed to
`FutureProducer::send_copy`, plus the result the future resolves to
(fixed at send time from the transport oracle). -/
structure DeliveryFuture where
  sent_payload : List Nat
  sent_key : List Nat
  result : WaitResult
  deriving DecidableEq, Repr

/-- rdkafka `FutureProducer`: the client configuration it was built from,
the transport oracle giving the n-th send's eventual result, and how many
sends have been issued. -/
structure FutureProducer where
  config : List (String × String)
  responses : Nat → WaitResult
  sends : Nat

/-- `ClientConfig::set`: store a key/value pair, overwriting the key. -/
def clientConfigSet (c : List (String × String)) (k v : String) :
    List (String × String) :=
  c.filter (fun p => p.1 ≠ k) ++ [(k, v)]

/-- `util::Valve`, the two-state backpressure signal. -/
inductive Valve
  | Open
  | Closed
  deriving DecidableEq, Repr

/-- `KafkaConfig` with the `Default` impl's values as field defaults. -/
structure KafkaConfig where
  config_path : Option String := none
  topic_name : Option String := none
  brokers : Option String := none
  rdkafka_config : Option (List (String × String)) := none
  max_message_bytes : Nat := 10 * (1 <<< 20)
  flush_interval : Nat := 1

/-- `metric::Telemetry` is outside the sampled files; the kafka sink
discards it, so only its existence matters. Modelled from the spec: a
measurement has a name, a value and a timestamp. -/
structure Telemetry where
  name : String
  value : Int
  timestamp : Nat
  deriving DecidableEq, Repr

/-- `metric::LogLine` is outside the sampled files; the kafka sink discards
it. Modelled from the spec: a log line has a path and a textual value. -/
structure LogLine where
  path : String
  value : String
  deriving DecidableEq, Repr

/-- `metric::Encoding` is outside the sampled files and ignored by
`deliver_raw`; a placeholder tag. -/
inductive Encoding
  | Raw
  | Json
  deriving DecidableEq, Repr

/-- Kafka sink internal state (struct `Kafka`), together with the four
process-wide counters `KAFKA_PUBLISH_SUCCESS_SUM`, `KAFKA_PUBLISH_RETRY_SUM`,
`KAFKA_PUBLISH_FAILURE_SUM`, `KAFKA_PUBLISH_RETRY_FAILURE_SUM` (globals in
the Rust; threaded through the state here, starting at 0 at process start). -/
structure Kafka where
  topic_name : String
  producer : FutureProducer
  messages : List DeliveryFuture
  message_bytes : Nat
  max_message_bytes : Nat
  flush_interval : Nat
  success_sum : Nat
  retry_sum : Nat
  failure_sum : Nat
  retry_failure_sum : Nat

/-- `Kafka::init`. The two panics on missing config become `Except.error`
with the panic messages; the transport oracle is a parameter (in Rust it is
the broker behind the created producer). -/
def Kafka.init (config : KafkaConfig) (responses : Nat → WaitResult) :
    Except String Kafka :=
  match config.topic_name with
  | none => Except.error "No Kafka topic name provided!"
  | some topic =>
    match config.brokers with
    | none => Except.error "No Kafka brokers provided!"
    | some brokers =>
      let producer_config : List (String × String) :=
        match config.rdkafka_config with
        | some map => map.foldl (fun c kv => clientConfigSet c kv.1 kv.2) []
        | none => []
      let producer_config :=
        clientConfigSet producer_config "bootstrap.servers" brokers
      Except.ok
        { topic_name := topic
          producer :=
            { config := producer_config, responses := responses, sends := 0 }
          messages := []
          message_bytes := 0
          max_message_bytes := config.max_message_bytes
          flush_interval := config.flush_interval
          success_sum := 0
          retry_sum := 0
          failure_sum := 0
          retry_failure_sum := 0 }

/-- `Kafka::valve_state` (kafka.rs lines 105-111). -/
def Kafka.valve_state (s : Kafka) : Valve :=
  if s.message_bytes < s.max_message_bytes then Valve.Open else Valve.Closed

/-- `Kafka::deliver`: discard point. -/
def Kafka.deliver (s : Kafka) (_point : Option Telemetry) : Kafka := s

/-- `Kafka::deliver_line`: discard line. -/
def Kafka.deliver_line (s : Kafka) (_line : Option LogLine) : Kafka := s

/-- `Kafka::try_payload`: hand payload and key to `send_copy`; the returned
future resolves to whatever the transport oracle answers for this send. -/
def Kafka.try_payload (s : Kafka) (payload : List Nat) (key : List Nat) :
    DeliveryFuture × Kafka :=
  ({ sent_payload := payload
     sent_key := key
     result := s.producer.responses s.producer.sends },
   { s with producer := { s.producer with sends := s.producer.sends + 1 } })

/-- One uppercase hex digit, as Rust's `{:X}` prints it. -/
def hexDigit (d : Nat) : Char :=
  if d < 10 then Char.ofNat (48 + d) else Char.ofNat (55 + d)

/-- Accumulate the uppercase hex digits of `n`, most significant first. -/
def hexDigitsAux (n : Nat) (acc : List Char) : List Char :=
  if h : n = 0 then acc
  else hexDigitsAux (n / 16) (hexDigit (n % 16) :: acc)
  termination_by n
  decreasing_by exact Nat.div_lt_self (Nat.pos_of_ne_zero h) (by norm_num)

/-- Rust `format ("{:X}", n)`: uppercase hex, `0` prints as "0". -/
def formatUpperHex (n : Nat) : List Char :=
  if n = 0 then ['0'] else hexDigitsAux n []

/-- `str::as_bytes` on an ASCII string of hex digits. -/
def asBytes (cs : List Char) : List Nat := cs.map Char.toNat

/-- `Kafka::deliver_raw` (kafka.rs lines 123-133): format the order key as
uppercase hex, send, push the future, add the payload length to
`message_bytes`. -/
def Kafka.deliver_raw (s : Kafka) (order_by : Nat) (_encoding : Encoding)
    (bytes : List Nat) : Kafka :=
  let key := asBytes (formatUpperHex order_by)
  let fs := s.try_payload bytes key
  { fs.2 with
    messages := fs.2.messages ++ [fs.1]
    message_bytes := fs.2.message_bytes + bytes.length }

/-- The per-future body of the map in `Kafka::await_inflight_messages`
(kafka.rs lines 188-238): classify the awaited result, bump the matching
counter, and return the `OwnedMessage` when the error is retryable. -/
def Kafka.awaitOne (s : Kafka) (future : DeliveryFuture) :
    Kafka × Option OwnedMessage :=
  match future.result with
  | .Ok_Ok _ _ => ({ s with success_sum := s.success_sum + 1 }, none)
  | .Ok_Err e message =>
    match e with
    | .MessageProduction err =>
      if err.isTransient then
        ({ s with retry_sum := s.retry_sum + 1 }, some message)
      else
        ({ s with failure_sum := s.failure_sum + 1 }, none)
    | .OtherKafkaError =>
      ({ s with failure_sum := s.failure_sum + 1 }, none)
  | .Err => ({ s with failure_sum := s.failure_sum + 1 }, none)

/-- `Kafka::await_inflight_messages`: wait on every in-flight future in
order and collect the messages that need to be retried. -/
def Kafka.await_inflight_messages (s : Kafka) : Kafka × List OwnedMessage :=
  s.messages.foldl
    (fun acc future =>
      let r := acc.1.awaitOne future
      (r.1, acc.2 ++ r.2.toList))
    (s, [])

/-- The per-message body of the map in `Kafka::flush` (kafka.rs lines
140-154): resubmit when both payload and key are present, otherwise count
a retry failure and drop the message. -/
def Kafka.retryOne (s : Kafka) (message : OwnedMessage) :
    Kafka × Option DeliveryFuture :=
  match message.payload, message.key with
  | some payload, some key =>
    let fs := s.try_payload payload key
    (fs.2, some fs.1)
  | _, _ =>
    ({ s with retry_failure_sum := s.retry_failure_sum + 1 }, none)

/-- One iteration of the `while` loop in `Kafka::flush`: await everything
in flight, resubmit the recoverable retries, and replace `messages` with
the newly created futures. -/
def Kafka.flushPass (s : Kafka) : Kafka :=
  let ar := s.await_inflight_messages
  let nr := ar.2.foldl
    (fun acc message =>
      let r := acc.1.retryOne message
      (r.1, acc.2 ++ r.2.toList))
    (ar.1, ([] : List DeliveryFuture))
  { nr.1 with messages := nr.2 }

/-- The `while !self.messages.is_empty()` loop of `Kafka::flush`, with
explicit fuel: `none` models the loop still running after `fuel`
iterations (the Rust loop can run forever under persistent transient
failures). -/
def Kafka.flushLoop : Nat → Kafka → Option Kafka
  | 0, s => if s.messages.isEmpty then some s else none
  | fuel + 1, s =>
    if s.messages.isEmpty then some s else Kafka.flushLoop fuel s.flushPass

/-- `Kafka::flush`: run the loop to completion, then set
`message_bytes := 0`; `some` exactly when the Rust call returns. -/
def Kafka.flush (s : Kafka) (fuel : Nat) : Option Kafka :=
  (Kafka.flushLoop fuel s).map (fun t => { t with message_bytes := 0 })

/-- `Kafka::shutdown`: consume the sink by flushing it. -/
def Kafka.shutdown (s : Kafka) (fuel : Nat) : Option Kafka := s.flush fuel

/-- `Kafka::flush_interval` accessor. -/
def Kafka.flush_interval_opt (s : Kafka) : Option Nat := some s.flush_interval

/-!
Dispatcher (src/sink.rs). `server::Event` carries batches of shared
`Arc<Metric>` references; the metric type is external to the sampled files,
so the loop is parametric in it. The loop's effect is its trace of calls
into the sink contract.
-/

/-- `server::Event`: a flush tick, or a batch of metrics from one of the
two protocol sources. -/
inductive Event (α : Type)
  | TimerFlush
  | Graphite (metrics : List α)
  | Statsd (metrics : List α)
  deriving DecidableEq, Repr

/-- A call the dispatch loop makes into the sink contract. `shutdown` never
occurs in the src/sink.rs trait but is part of the specified contract, so
the trace alphabet includes it. -/
inductive SinkCall (α : Type)
  | flush
  | deliver (metric : α)
  | shutdown
  deriving DecidableEq, Repr

/-- True exactly on a `shutdown` call. -/
def SinkCall.isShutdown {α : Type} : SinkCall α → Bool
  | .shutdown => true
  | _ => false

/-- The match arms of `Sink::run` (sink.rs lines 20-34): a timer flush
causes one `flush` call; a Graphite or Statsd batch causes one `deliver`
call per metric, in batch order. -/
def handleEvent {α : Type} : Event α → List (SinkCall α)
  | .TimerFlush => [SinkCall.flush]
  | .Graphite metrics => metrics.map SinkCall.deliver
  | .Statsd metrics => metrics.map SinkCall.deliver

/-- `Sink::run` (sink.rs lines 18-36): consume the channel's events in
order until it closes; `events` is the whole sequence received before the
close, and the result is the trace of sink-contract calls made. -/
def run {α : Type} : List (Event α) → List (SinkCall α)
  | [] => []
  | e :: rest => handleEvent e ++ run rest

/-!
Concrete states used by scenario theorems and witnesses.
-/

/-- A transport that acknowledges every send. -/
def okResponses : Nat → WaitResult := fun _ => WaitResult.Ok_Ok 0 0

/-- A configuration with topic and brokers present and default limits. -/
def scenarioConfig : KafkaConfig :=
  { topic_name := some "events", brokers := some "localhost:9092" }

/-- The sink `Kafka.init scenarioConfig okResponses` constructs. -/
def kInit : Kafka :=
  { topic_name := "events"
    producer :=
      { config := [("bootstrap.servers", "localhost:9092")]
        responses := okResponses
        sends := 0 }
    messages := []
    message_bytes := 0
    max_message_bytes := 10 * (1 <<< 20)
    flush_interval := 1
    success_sum := 0
    retry_sum := 0
    failure_sum := 0
    retry_failure_sum := 0 }

/-- A 4MB payload. -/
def payload4MB : List Nat := List.replicate (4 * (1 <<< 20)) 0

/-- An in-flight future that resolved successfully. -/
def fOk : DeliveryFuture :=
  { sent_payload := [1, 2, 3], sent_key := [65], result := WaitResult.Ok_Ok 0 7 }

/-- An in-flight future that failed with a transient error carrying back
its original payload and key. -/
def fTransient : DeliveryFuture :=
  { sent_payload := [1, 2, 3]
    sent_key := [65]
    result :=
      WaitResult.Ok_Err
        (KafkaError.MessageProduction RDKafkaError.RequestTimedOut)
        { payload := some [1, 2, 3], key := some [65] } }

/-- An in-flight future that failed with a transient error whose signal
carries neither payload nor key. -/
def fLost : DeliveryFuture :=
  { sent_payload := [7, 7]
    sent_key := [66]
    result :=
      WaitResult.Ok_Err
        (KafkaError.MessageProduction RDKafkaError.RequestTimedOut)
        { payload := none, key := none } }

/-- The sink with exactly `fLost` in flight. -/
def kLost : Kafka := { kInit with messages := [fLost], message_bytes := 2 }

/-!
Helper lemmas shared across the claim theorems.
-/

/-- When `flushLoop` returns, the in-flight list is empty (the `while`
guard is false on exit). -/
theorem flushLoop_messages_nil :
    ∀ (fuel : Nat) (s t : Kafka), Kafka.flushLoop fuel s = some t →
      t.messages = [] := by
  intro fuel
  induction fuel with
  | zero =>
    intro s t h
    by_cases hm : s.messages.isEmpty
    · simp only [Kafka.flushLoop, hm, if_true, Option.some.injEq] at h
      rw [← h]
      exact List.isEmpty_iff.mp hm
    · simp [Kafka.flushLoop, hm] at h
  | succ n ih =>
    intro s t h
    by_cases hm : s.messages.isEmpty
    · simp only [Kafka.flushLoop, hm, if_true, Option.some.injEq] at h
      rw [← h]
      exact List.isEmpty_iff.mp hm
    · simp only [Kafka.flushLoop, hm, if_false, Bool.false_eq_true] at h
      exact ih _ _ h

/-- When `flush` returns, the in-flight list is empty and the byte total is
zero. -/
theorem flush_returns_empty (s : Kafka) (fuel : Nat) (t : Kafka)
    (h : s.flush fuel = some t) :
    t.messages = [] ∧ t.message_bytes = 0 := by
  unfold Kafka.flush at h
  rcases Option.map_eq_some'.mp h with ⟨u, hu, ht⟩
  subst ht
  exact ⟨flushLoop_messages_nil fuel s u hu, rfl⟩

/-- Shape of a successful `Kafka.init`: fresh empty in-flight state and
counters. -/
theorem init_ok_shape (config : KafkaConfig) (responses : Nat → WaitResult)
    (k : Kafka) (h : Kafka.init config responses = Except.ok k) :
    k.messages = [] ∧ k.message_bytes = 0 := by
  unfold Kafka.init at h
  cases htopic : config.topic_name with
  | none => rw [htopic] at h; exact absurd h (by simp)
  | some topic =>
    cases hbrokers : config.brokers with
    | none => rw [htopic, hbrokers] at h; exact absurd h (by simp)
    | some brokers =>
      rw [htopic, hbrokers] at h
      simp only [Except.ok.injEq] at h
      rw [← h]
      exact ⟨rfl, rfl⟩

/-- `deliver_raw` adds the payload length to the byte total. -/
theorem deliver_raw_message_bytes (s : Kafka) (ob : Nat) (enc : Encoding)
    (bytes : List Nat) :
    (s.deliver_raw ob enc bytes).message_bytes =
      s.message_bytes + bytes.length := rfl

/-- `deliver_raw` leaves the configured ceiling unchanged. -/
theorem deliver_raw_max (s : Kafka) (ob : Nat) (enc : Encoding)
    (bytes : List Nat) :
    (s.deliver_raw ob enc bytes).max_message_bytes =
      s.max_message_bytes := rfl

/-- C1: for every sequence of deliver_raw submissions, when `flush` returns,
the in-flight collection `messages` is empty and the in-flight byte total
`message_bytes` equals 0. -/
theorem flush_drains_inflight (s : Kafka) (fuel : Nat) (t : Kafka)
    (h : s.flush fuel = some t) : t.messages = [] ∧ t.message_bytes = 0 :=
  flush_returns_empty s fuel t h

/-- Witness for C1 at the freshly initialised sink. -/
theorem flush_drains_inflight_witness :
    ({ kInit with message_bytes := 0 } : Kafka).messages = [] ∧
      ({ kInit with message_bytes := 0 } : Kafka).message_bytes = 0 :=
  flush_drains_inflight kInit 0 { kInit with message_bytes := 0 } rfl

/-- C2: the valve is `Closed` exactly when `message_bytes` has reached
`max_message_bytes` — stated for every sink state, so in particular it
holds after every `deliver_raw` and every `flush`; and in the concrete
scenario of three 4MB payloads under the default 10MB ceiling the valve is
`Open` after two submissions and `Closed` after the third. -/
theorem valve_closed_iff_over_ceiling :
    (∀ s : Kafka,
        s.valve_state =
          if s.max_message_bytes ≤ s.message_bytes then Valve.Closed
          else Valve.Open) ∧
    ((kInit.deliver_raw 1 Encoding.Raw payload4MB).deliver_raw 2 Encoding.Raw
          payload4MB).valve_state = Valve.Open ∧
    (((kInit.deliver_raw 1 Encoding.Raw payload4MB).deliver_raw 2 Encoding.Raw
          payload4MB).deliver_raw 3 Encoding.Raw payload4MB).valve_state =
      Valve.Closed := by
  have hlen : payload4MB.length = 4194304 := by
    rw [payload4MB, List.length_replicate]; decide
  refine ⟨?_, ?_, ?_⟩
  · intro s
    unfold Kafka.valve_state
    rcases Nat.lt_or_ge s.message_bytes s.max_message_bytes with h | h
    · rw [if_pos h, if_neg (Nat.not_le.mpr h)]
    · rw [if_neg (Nat.not_lt.mpr h), if_pos h]
  · unfold Kafka.valve_state
    rw [deliver_raw_message_bytes, deliver_raw_message_bytes, hlen,
      deliver_raw_max, deliver_raw_max]
    decide
  · unfold Kafka.valve_state
    rw [deliver_raw_message_bytes, deliver_raw_message_bytes,
      deliver_raw_message_bytes, hlen, deliver_raw_max, deliver_raw_max,
      deliver_raw_max]
    decide

/-- C7: a flush tick produces exactly one `flush` call, a measurement batch
from either source produces exactly one `deliver` call per metric in batch
order (including the empty batch), and the loop handles each received event
once, in order. -/
theorem dispatcher_event_handling {α : Type} (ms : List α) (e : Event α)
    (rest : List (Event α)) :
    handleEvent (Event.TimerFlush : Event α) = [SinkCall.flush] ∧
    handleEvent (Event.Graphite ms) = ms.map SinkCall.deliver ∧
    handleEvent (Event.Statsd ms) = ms.map SinkCall.deliver ∧
    run ([] : List (Event α)) = [] ∧
    run (e :: rest) = handleEvent e ++ run rest :=
  ⟨rfl, rfl, rfl, rfl, rfl⟩

/-- C8 counterexample: after the channel closes past a single flush tick,
the complete trace of the dispatch loop is just the one `flush` call — it
contains no `shutdown` call, contradicting the claim that `shutdown` is
called before exiting. -/
theorem run_no_shutdown_counterexample :
    run ([Event.TimerFlush] : List (Event Nat)) = [SinkCall.flush] ∧
    (run ([Event.TimerFlush] : List (Event Nat))).filter SinkCall.isShutdown
      = [] :=
  ⟨rfl, rfl⟩

/-- C8 amended: when the channel closes, the dispatch loop terminates after
handling exactly the received events in order, and exits without making any
`shutdown` call (the src/sink.rs `Sink` trait has no shutdown operation). -/
theorem run_terminates_without_shutdown {α : Type}
    (events : List (Event α)) :
    run events = (events.map handleEvent).flatten ∧
    (run events).filter SinkCall.isShutdown = [] := by
  induction events with
  | nil => exact ⟨rfl, rfl⟩
  | cons e rest ih =>
    constructor
    · rw [List.map_cons, List.flatten_cons, ← ih.1]
      rfl
    · show (handleEvent e ++ run rest).filter SinkCall.isShutdown = []
      rw [List.filter_append, ih.2, List.append_nil]
      cases e with
      | TimerFlush => rfl
      | Graphite ms =>
        rw [List.filter_eq_nil_iff]
        intro a ha
        rcases List.mem_map.mp ha with ⟨m, _, hm⟩
        rw [← hm]
        simp [SinkCall.isShutdown]
      | Statsd ms =>
        rw [List.filter_eq_nil_iff]
        intro a ha
        rcases List.mem_map.mp ha with ⟨m, _, hm⟩
        rw [← hm]
        simp [SinkCall.isShutdown]

/-- C9: construction fails with the panic message when the topic name or
the broker list is missing, and gets past both checks when both are
present. -/
theorem init_requires_topic_and_brokers :
    (∀ (config : KafkaConfig) (responses : Nat → WaitResult),
        config.topic_name = none ∨ config.brokers = none →
        ∃ msg, Kafka.init config responses = Except.error msg) ∧
    (∀ (config : KafkaConfig) (responses : Nat → WaitResult)
        (topic brokers : String),
        config.topic_name = some topic → config.brokers = some brokers →
        ∃ k, Kafka.init config responses = Except.ok k) := by
  constructor
  · intro config responses h
    unfold Kafka.init
    cases htopic : config.topic_name with
    | none => exact ⟨_, rfl⟩
    | some topic =>
      cases hbrokers : config.brokers with
      | none => exact ⟨_, rfl⟩
      | some brokers =>
        rcases h with h | h
        · rw [htopic] at h; exact absurd h (by simp)
        · rw [hbrokers] at h; exact absurd h (by simp)
  · intro config responses topic brokers ht hb
    unfold Kafka.init
    rw [ht, hb]
    exact ⟨_, rfl⟩

/-- Witness for C9: the all-default configuration is rejected and the
scenario configuration is accepted. -/
theorem init_requires_topic_and_brokers_witness :
    (∃ msg, Kafka.init ({} : KafkaConfig) okResponses = Except.error msg) ∧
    (∃ k, Kafka.init scenarioConfig okResponses = Except.ok k) :=
  ⟨init_requires_topic_and_brokers.1 ({} : KafkaConfig) okResponses
      (Or.inl rfl),
   init_requires_topic_and_brokers.2 scenarioConfig okResponses "events"
      "localhost:9092" rfl rfl⟩

/-- C10: `deliver` and `deliver_line` discard their input and leave the
entire sink state — in-flight collection, byte total, valve input, every
counter — unchanged. -/
theorem deliver_and_deliver_line_discard (s : Kafka)
    (point : Option Telemetry) (line : Option LogLine) :
    s.deliver point = s ∧ s.deliver_line line = s :=
  ⟨rfl, rfl⟩

/-- C6: a future that resolved successfully bumps the success counter by
exactly one, changes nothing else, yields no retry message, and a flush
pass over it leaves nothing in flight (it is terminal). -/
theorem success_outcome_counts_once (s : Kafka) (f : DeliveryFuture)
    (p o : Int) (h : f.result = WaitResult.Ok_Ok p o) :
    s.awaitOne f = ({ s with success_sum := s.success_sum + 1 }, none) ∧
    (∀ s1 : Kafka, s1.messages = [f] →
      s1.flushPass =
        { s1 with messages := [], success_sum := s1.success_sum + 1 }) := by
  constructor
  · unfold Kafka.awaitOne
    rw [h]
  · intro s1 h1
    unfold Kafka.flushPass Kafka.await_inflight_messages
    rw [h1]
    simp only [List.foldl_cons, List.foldl_nil]
    unfold Kafka.awaitOne
    rw [h]
    simp

/-- Witness for C6 at a concrete acknowledged future. -/
theorem success_outcome_counts_once_witness :
    kInit.awaitOne fOk = ({ kInit with success_sum := 1 }, none) :=
  (success_outcome_counts_once kInit fOk 0 7 rfl).1

/-- C3: a future that resolved with a transient-classified production error
whose signal carries back the original payload and key bumps the retry
counter by exactly one and is resubmitted within the same flush pass with
byte-for-byte identical payload and key. -/
theorem transient_retry_resubmits (s : Kafka) (f : DeliveryFuture)
    (e : RDKafkaError) (ht : e.isTransient = true)
    (hr : f.result = WaitResult.Ok_Err (KafkaError.MessageProduction e)
      { payload := some f.sent_payload, key := some f.sent_key }) :
    s.awaitOne f = ({ s with retry_sum := s.retry_sum + 1 },
      some { payload := some f.sent_payload, key := some f.sent_key }) ∧
    (∀ s1 : Kafka, s1.messages = [f] →
      s1.flushPass =
        { s1 with
          messages := [{ sent_payload := f.sent_payload
                         sent_key := f.sent_key
                         result :=
                           s1.producer.responses s1.producer.sends }]
          retry_sum := s1.retry_sum + 1
          producer :=
            { s1.producer with sends := s1.producer.sends + 1 } }) := by
  constructor
  · unfold Kafka.awaitOne
    rw [hr]
    simp only [ht, if_true]
  · intro s1 h1
    unfold Kafka.flushPass Kafka.await_inflight_messages
    rw [h1]
    simp only [List.foldl_cons, List.foldl_nil]
    unfold Kafka.awaitOne
    rw [hr]
    simp only [ht, if_true]
    unfold Kafka.retryOne Kafka.try_payload
    simp

/-- Witness for C3 at a concrete transient failure carrying its payload. -/
theorem transient_retry_resubmits_witness :
    kInit.awaitOne fTransient = ({ kInit with retry_sum := 1 },
      some { payload := some [1, 2, 3], key := some [65] }) :=
  (transient_retry_resubmits kInit fTransient RDKafkaError.RequestTimedOut
    rfl rfl).1

/-- C4 counterexample: flushing a sink whose single in-flight future failed
with a transient error carrying back neither payload nor key leaves the
counters at success 0, retry 1, failure 0, retry-lost 1 — the retry
counter changed, contradicting the claim that no counter other than
retry-lost changes. -/
theorem retry_lost_also_counts_retry_counterexample :
    (kLost.flush 2).map
        (fun t =>
          (t.success_sum, t.retry_sum, t.failure_sum, t.retry_failure_sum))
      = some (0, 1, 0, 1) := rfl

/-- C4 amended: a transient-classified error whose signal carries no
payload (or no key) bumps the retry-lost counter by exactly one and is not
resubmitted, with success and failure unchanged — but the retry counter
also increases by one, because the transient classification is counted
before recoverability is checked. -/
theorem transient_without_payload_counts_retry_lost
    (f : DeliveryFuture) (e : RDKafkaError) (m : OwnedMessage)
    (ht : e.isTransient = true)
    (hr : f.result = WaitResult.Ok_Err (KafkaError.MessageProduction e) m)
    (hm : m.payload = none ∨ m.key = none) :
    ∀ s1 : Kafka, s1.messages = [f] →
      s1.flushPass =
        { s1 with
          messages := []
          retry_sum := s1.retry_sum + 1
          retry_failure_sum := s1.retry_failure_sum + 1 } := by
  intro s1 h1
  unfold Kafka.flushPass Kafka.await_inflight_messages
  rw [h1]
  simp only [List.foldl_cons, List.foldl_nil]
  unfold Kafka.awaitOne
  rw [hr]
  simp only [ht, if_true]
  unfold Kafka.retryOne
  cases m with
  | mk mp mk' =>
    rcases hm with hp | hk
    · simp only at hp
      subst hp
      simp
    · simp only at hk
      subst hk
      cases mp <;> simp

/-- Witness for the amended C4 at the concrete lost-payload failure. -/
theorem transient_without_payload_counts_retry_lost_witness :
    kLost.flushPass =
      { kLost with messages := [], retry_sum := 1, retry_failure_sum := 1 } :=
  transient_without_payload_counts_retry_lost fLost
    RDKafkaError.RequestTimedOut { payload := none, key := none } rfl rfl
    (Or.inl rfl) kLost rfl

/-- Sum of the payload lengths of the in-flight futures. -/
def inflight_bytes (ms : List DeliveryFuture) : Nat :=
  (ms.map (fun f => f.sent_payload.length)).sum

/-- The sink states visible at the public interface boundary: a freshly
constructed sink, or the result of `deliver`, `deliver_line`,
`deliver_raw`, or a returning `flush` on such a state. -/
inductive ReachableK : Kafka → Prop
  | init (config : KafkaConfig) (responses : Nat → WaitResult) (k : Kafka) :
      Kafka.init config responses = Except.ok k → ReachableK k
  | deliver (s : Kafka) (point : Option Telemetry) :
      ReachableK s → ReachableK (s.deliver point)
  | deliver_line (s : Kafka) (line : Option LogLine) :
      ReachableK s → ReachableK (s.deliver_line line)
  | deliver_raw (s : Kafka) (ob : Nat) (enc : Encoding)
      (bytes : List Nat) :
      ReachableK s → ReachableK (s.deliver_raw ob enc bytes)
  | flush (s : Kafka) (fuel : Nat) (t : Kafka) :
      ReachableK s → s.flush fuel = some t → ReachableK t

/-- `deliver_raw` appends one future carrying the submitted payload. -/
theorem deliver_raw_messages (s : Kafka) (ob : Nat) (enc : Encoding)
    (bytes : List Nat) :
    (s.deliver_raw ob enc bytes).messages =
      s.messages ++
        [{ sent_payload := bytes
           sent_key := asBytes (formatUpperHex ob)
           result := s.producer.responses s.producer.sends }] := rfl

/-- C5: in every state at the public interface boundary, `message_bytes`
equals the sum of the in-flight payload lengths. -/
theorem bytes_invariant (s : Kafka) (h : ReachableK s) :
    s.message_bytes = inflight_bytes s.messages := by
  induction h with
  | init config responses k hk =>
    obtain ⟨hm, hb⟩ := init_ok_shape config responses k hk
    rw [hm, hb]
    rfl
  | deliver s point _ ih => exact ih
  | deliver_line s line _ ih => exact ih
  | deliver_raw s ob enc bytes _ ih =>
    rw [deliver_raw_message_bytes, deliver_raw_messages]
    unfold inflight_bytes at ih ⊢
    rw [List.map_append, List.sum_append, ih]
    simp
  | flush s fuel t _ hf _ =>
    obtain ⟨hm, hb⟩ := flush_returns_empty s fuel t hf
    rw [hm, hb]
    rfl

/-- Witness for C5 at the freshly initialised sink. -/
theorem bytes_invariant_witness :
    kInit.message_bytes = inflight_bytes kInit.messages :=
  bytes_invariant kInit (ReachableK.init scenarioConfig okResponses kInit rfl)

end Cernan
